import Mathlib

set_option maxHeartbeats 1000000

/-!
Verification of the ffmpeg-api `/process` pipeline.

Shallow embedding of `app/main.py` (the FastAPI revision of the repository):
filename sanitization, output-name derivation (`generate_output_filename`),
`shlex.split`-style flag tokenization, workspace cleanup
(`cleanup_temp_dir`), and the control flow of the
`process_file_with_ffmpeg` request handler.  External effects (saving the
upload, launching the subprocess, checking the output file) are represented
by an explicit `World` oracle; the handler itself is a pure function of the
request fields and that oracle, and it records which cleanup tasks it
scheduled and which argument vector (if any) it handed to the
process-creation call.
-/

/-- Models Python `str.isalnum` on the ASCII plane: letters and digits. -/
def pyIsAlnum (c : Char) : Bool := c.isAlphanum

/-- Models Python `str.isspace` on the ASCII plane. -/
def pyIsSpace (c : Char) : Bool :=
  c == ' ' || c == '\t' || c == '\n' || c == '\r' || c == '\x0b' || c == '\x0c'

/-- Python `s.isspace()`: non-empty and every character is whitespace. -/
def str_isspace (s : String) : Bool := !s.isEmpty && s.data.all pyIsSpace

/-- One character of the sanitizer used at main.py lines 46 and 87:
`c if c.isalnum() or c in ['.', '_', '-'] else '_'`. -/
def sanitizeChar (c : Char) : Char :=
  if pyIsAlnum c || ['.', '_', '-'].contains c then c else '_'

/-- The sanitizer: `"".join(c if c.isalnum() or c in ['.', '_', '-'] else '_' for c in s)`. -/
def sanitize (s : String) : String := String.mk (s.data.map sanitizeChar)

/-- Whether a character list contains the two-character run `..`. -/
def hasDotDot : List Char → Bool
  | '.' :: '.' :: _ => true
  | _ :: rest => hasDotDot rest
  | [] => false

/-- Index of the last occurrence of `c` in `cs`, if any. -/
def lastIdxOf (cs : List Char) (c : Char) : Option Nat :=
  match cs with
  | [] => none
  | a :: rest =>
    match lastIdxOf rest c with
    | some i => some (i + 1)
    | none => if a = c then some (0 : Nat) else none

/-- Models CPython `os.path.splitext` (posix `genericpath._splitext` with
separator `/` and extension separator `.`): split at the last dot of the
final path component, unless all characters between the component start and
that dot are dots (so leading-dot names like `.bashrc` keep no extension). -/
def splitext (p : String) : String × String :=
  let cs := p.data
  let filenameIndex : Nat :=
    match lastIdxOf cs '/' with
    | some i => i + 1
    | none => 0
  match lastIdxOf cs '.' with
  | none => (p, "")
  | some sepIndex =>
    if filenameIndex < sepIndex ∧
        (((cs.drop filenameIndex).take (sepIndex - filenameIndex)).any (fun c => c != '.')) = true
    then (String.mk (cs.take sepIndex), String.mk (cs.drop sepIndex))
    else (p, "")

/-- Lines 51-59 of main.py: the default output name when no output filename
was requested.  `base, ext = os.path.splitext(input_filename)`; a dead guard
swaps `ext` into `base` when `base` is empty but `ext` is not; when the input
has no dot the whole name is the base; result is `base + "_transformed" + ext`. -/
def fallback_output_filename (input_filename : String) : String :=
  let base0 := (splitext input_filename).1
  let ext0 := (splitext input_filename).2
  if base0 = "" ∧ ext0 ≠ "" then ext0 ++ "_transformed"
  else if '.' ∉ input_filename.data then input_filename ++ "_transformed"
  else base0 ++ "_transformed" ++ ext0

/-- main.py lines 43-59, `generate_output_filename`.  Python truthiness of the
optional `requested_filename` is modelled explicitly: `none` and `some ""` both
fall through to the derived name. -/
def generate_output_filename (input_filename : String)
    (requested_filename : Option String) : Except String String :=
  match requested_filename with
  | some r =>
    if r = "" then Except.ok (fallback_output_filename input_filename)
    else
      let sanitized_name := sanitize r
      if sanitized_name = "" then
        Except.error "Requested output filename is invalid after sanitization."
      else Except.ok sanitized_name
  | none => Except.ok (fallback_output_filename input_filename)

/-- main.py line 88: fall back to a generated unique basename when the
sanitized upload name is empty; the uuid hex digits are an oracle input. -/
def safe_input_basename (uuidHex : String) (input_filename_orig : String) : String :=
  let s := sanitize input_filename_orig
  if s = "" then "input_" ++ uuidHex else s

/-- States of the CPython `shlex` lexer restricted to the configuration used
by `shlex.split` in main.py line 119: posix mode, `whitespace_split=True`,
comments disabled, quotes `'"`, escape `\`, `escapedquotes` containing `"` only. -/
inductive LexState
  | sep
  | word
  | quoteS
  | quoteD
  | escWord
  | escDQ

/-- `shlex.whitespace`. -/
def pyShlexWs (c : Char) : Bool := c == ' ' || c == '\t' || c == '\r' || c == '\n'

/-- The `shlex.read_token` state machine folded over the whole input, one
character per step, with the per-token `quoted` flag and accumulated token.
End of input inside a quote raises `No closing quotation`; end of input right
after an escape raises `No escaped character` (ValueError messages). -/
def shlexSplitAux : LexState → List Char → Bool → List String → List Char →
    Except String (List String)
  | LexState.sep, _, _, acc, [] => Except.ok acc
  | LexState.word, tok, quoted, acc, [] =>
    if tok.isEmpty && !quoted then Except.ok acc
    else Except.ok (acc ++ [String.mk tok])
  | LexState.quoteS, _, _, _, [] => Except.error "No closing quotation"
  | LexState.quoteD, _, _, _, [] => Except.error "No closing quotation"
  | LexState.escWord, _, _, _, [] => Except.error "No escaped character"
  | LexState.escDQ, _, _, _, [] => Except.error "No escaped character"
  | LexState.sep, _, _, acc, c :: rest =>
    if pyShlexWs c then shlexSplitAux LexState.sep [] false acc rest
    else if c == '\'' then shlexSplitAux LexState.quoteS [] true acc rest
    else if c == '"' then shlexSplitAux LexState.quoteD [] true acc rest
    else if c == '\\' then shlexSplitAux LexState.escWord [] false acc rest
    else shlexSplitAux LexState.word [c] false acc rest
  | LexState.word, tok, quoted, acc, c :: rest =>
    if pyShlexWs c then
      if tok.isEmpty && !quoted then shlexSplitAux LexState.sep [] false acc rest
      else shlexSplitAux LexState.sep [] false (acc ++ [String.mk tok]) rest
    else if c == '\'' then shlexSplitAux LexState.quoteS tok true acc rest
    else if c == '"' then shlexSplitAux LexState.quoteD tok true acc rest
    else if c == '\\' then shlexSplitAux LexState.escWord tok quoted acc rest
    else shlexSplitAux LexState.word (tok ++ [c]) quoted acc rest
  | LexState.quoteS, tok, _, acc, c :: rest =>
    if c == '\'' then shlexSplitAux LexState.word tok true acc rest
    else shlexSplitAux LexState.quoteS (tok ++ [c]) true acc rest
  | LexState.quoteD, tok, _, acc, c :: rest =>
    if c == '"' then shlexSplitAux LexState.word tok true acc rest
    else if c == '\\' then shlexSplitAux LexState.escDQ tok true acc rest
    else shlexSplitAux LexState.quoteD (tok ++ [c]) true acc rest
  | LexState.escWord, tok, quoted, acc, c :: rest =>
    shlexSplitAux LexState.word (tok ++ [c]) quoted acc rest
  | LexState.escDQ, tok, _, acc, c :: rest =>
    if c == '\\' || c == '"' then shlexSplitAux LexState.quoteD (tok ++ [c]) true acc rest
    else shlexSplitAux LexState.quoteD (tok ++ ['\\', c]) true acc rest

/-- `shlex.split(s)` as used at main.py line 119. -/
def shlexSplit (s : String) : Except String (List String) :=
  shlexSplitAux LexState.sep [] false [] s.data

/-- main.py line 17. -/
def FFMPEG_PATH : String := "ffmpeg"

/-- main.py lines 127-132: the assembled argument vector
`[FFMPEG_PATH, "-i", input_file_path, *command_args, output_file_path]`. -/
def buildInvocation (toolPath : String) (inputPath : String)
    (args : List String) (outputPath : String) : List String :=
  [toolPath, "-i", inputPath] ++ args ++ [outputPath]

/-- Outcome of the `subprocess.run` call: normal termination with an exit
status and captured streams, `FileNotFoundError` (executable missing), or any
other exception during execution. -/
inductive RunOutcome
  | completed (returncode : Int) (pstdout : String) (pstderr : String)
  | notFound
  | failed (msg : String)

/-- Oracle for the external effects of one request: the path `mkdtemp`
returned, the uuid hex used by the basename fallback, whether saving the
upload succeeds (and the error text when it does not), the behaviour of the
external process for a given argument vector, whether the declared output
path exists on disk after the run, and the `mimetypes.guess_type` table. -/
structure World where
  tempDir : String
  uuidHex : String
  saveOk : Bool
  saveErr : String
  run : List String → RunOutcome
  outputExists : Bool
  guessType : String → Option String

/-- The handler's HTTP-level outcome: a streamed file (path, suggested
filename, media type) or an error status with a detail string. -/
inductive Response
  | file (path : String) (filename : String) (mediaType : String)
  | error (status : Nat) (detail : String)
deriving DecidableEq

/-- What one handler execution did: the response, how many times the
workspace-cleanup background task was scheduled, and the argument vector
handed to the process-creation call (if it was reached). -/
structure HandlerResult where
  response : Response
  cleanupScheduled : Nat
  launched : Option (List String)

/-- main.py lines 193-208: the blanket `except Exception` at the end of the
handler catches every exception raised inside the `try` block - including the
`HTTPException`s the handler itself raised with deliberate status codes,
since FastAPI's `HTTPException` subclasses `Exception` - and re-raises a
fresh 500 whose detail embeds `str(e)`, which for a starlette
`HTTPException` is `"<status>: <detail>"`. -/
def outerWrap (status : Nat) (detail : String) : Response :=
  Response.error 500
    ("An internal server error occurred: " ++ toString status ++ ": " ++ detail)

/-- main.py lines 31-41, `cleanup_temp_dir`: if the directory exists, remove
it and its whole subtree (`shutil.rmtree`); otherwise do nothing.  The disk
is modelled as the list of existing paths. -/
def cleanup_temp_dir (fs : List String) (temp_dir_path : String) : List String :=
  if temp_dir_path ∈ fs then
    fs.filter (fun p => !(p == temp_dir_path || String.isPrefixOf (temp_dir_path ++ "/") p))
  else fs

/-- main.py line 86: `input_filename_orig = file.filename or "input_file"` -
Python truthiness makes both a missing and an empty upload filename fall back
to `"input_file"`. -/
def input_filename_orig_of (fileFilename : Option String) : String :=
  match fileFilename with
  | some s => if s = "" then "input_file" else s
  | none => "input_file"

/-- main.py lines 127-192: assemble the invocation, run the tool, classify
the outcome.  `check=True` raises `CalledProcessError` exactly when the exit
status is non-zero; its diagnostic is `e.stderr or e.stdout or 'No output
captured.'`.  A zero exit status with no output file on disk is the
line-174 failure; only a verified-present output is streamed back. -/
def run_and_respond (w : World) (input_file_path : String) (output_file_path : String)
    (final_output_filename : String) (command_args : List String) : HandlerResult :=
  let ffmpeg_command :=
    buildInvocation FFMPEG_PATH input_file_path command_args output_file_path
  match w.run ffmpeg_command with
  | RunOutcome.notFound =>
    { response := outerWrap 500
        "FFmpeg command not found on the server. Path used: 'ffmpeg'",
      cleanupScheduled := 1, launched := some ffmpeg_command }
  | RunOutcome.failed msg =>
    { response := outerWrap 500 ("An unexpected error occurred: " ++ msg),
      cleanupScheduled := 1, launched := some ffmpeg_command }
  | RunOutcome.completed returncode pstdout pstderr =>
    if returncode ≠ 0 then
      { response := outerWrap 500
          ("FFmpeg error (code " ++ toString returncode ++ "): " ++
            (if pstderr ≠ "" then pstderr
             else if pstdout ≠ "" then pstdout
             else "No output captured.")),
        cleanupScheduled := 1, launched := some ffmpeg_command }
    else if w.outputExists = false then
      { response := outerWrap 500
          "FFmpeg seemed to complete, but the output file was not found. Check API logs and FFmpeg command.",
        cleanupScheduled := 1, launched := some ffmpeg_command }
    else
      { response := Response.file output_file_path final_output_filename
          ((w.guessType output_file_path).getD "application/octet-stream"),
        cleanupScheduled := 1, launched := some ffmpeg_command }

/-- main.py lines 62-208, the `/process` handler `process_file_with_ffmpeg`.
Every branch schedules the cleanup background task exactly once (line 82,
before any fallible step; the final `except` block deliberately does not add
it again).  Each `raise HTTPException(status, detail)` inside the `try` is
routed through `outerWrap` because of the blanket `except Exception`. -/
def process_file_with_ffmpeg (w : World) (fileFilename : Option String)
    (commands : String) (output_filename : Option String) : HandlerResult :=
  let temp_dir_path := w.tempDir
  let input_filename_orig := input_filename_orig_of fileFilename
  let input_file_path := temp_dir_path ++ "/" ++ safe_input_basename w.uuidHex input_filename_orig
  if w.saveOk = false then
    { response := outerWrap 500 ("Could not save uploaded file: " ++ w.saveErr),
      cleanupScheduled := 1, launched := none }
  else
    match generate_output_filename input_filename_orig output_filename with
    | Except.error msg =>
      { response := outerWrap 400 msg, cleanupScheduled := 1, launched := none }
    | Except.ok final_output_filename =>
      let output_file_path := temp_dir_path ++ "/" ++ final_output_filename
      if commands.isEmpty || str_isspace commands then
        { response := outerWrap 400
            "Invalid command string format: FFmpeg commands cannot be empty.. Ensure proper quoting if needed.",
          cleanupScheduled := 1, launched := none }
      else
        match shlexSplit commands with
        | Except.error e =>
          { response := outerWrap 400
              ("Invalid command string format: " ++ e ++ ". Ensure proper quoting if needed."),
            cleanupScheduled := 1, launched := none }
        | Except.ok command_args =>
          run_and_respond w input_file_path output_file_path final_output_filename command_args

/-- A concrete world where every external step succeeds. -/
def W0 : World :=
  { tempDir := "/tmp/ffmpeg_api_abc", uuidHex := "deadbeef", saveOk := true,
    saveErr := "", run := fun _ => RunOutcome.completed 0 "out" "err",
    outputExists := true, guessType := fun _ => none }

/-- A world whose tool exits 0 but leaves no output file behind. -/
def W1 : World :=
  { W0 with run := fun _ => RunOutcome.completed 0 "" "", outputExists := false }

/-- A world whose tool exits 1 with diagnostics only on stderr. -/
def W2 : World :=
  { W0 with run := fun _ => RunOutcome.completed 1 "" "boom" }

/-! ### Properties of the sanitizer -/

theorem sanitizeChar_idem (c : Char) : sanitizeChar (sanitizeChar c) = sanitizeChar c := by
  by_cases h : (pyIsAlnum c || ['.', '_', '-'].contains c) = true
  · have hc : sanitizeChar c = c := if_pos h
    rw [hc]
    exact hc
  · have hc : sanitizeChar c = '_' := if_neg h
    rw [hc]
    decide

theorem sanitizeChar_ne_slash (c : Char) : sanitizeChar c ≠ '/' := by
  by_cases h : (pyIsAlnum c || ['.', '_', '-'].contains c) = true
  · unfold sanitizeChar
    rw [if_pos h]
    intro hc
    subst hc
    exact absurd h (by decide)
  · unfold sanitizeChar
    rw [if_neg h]
    decide

theorem sanitize_data (s : String) : (sanitize s).data = s.data.map sanitizeChar := rfl

theorem sanitize_length (s : String) : (sanitize s).length = s.length := by
  show (sanitize s).data.length = s.data.length
  rw [sanitize_data, List.length_map]

theorem sanitize_ne_empty {s : String} (h : s ≠ "") : sanitize s ≠ "" := by
  intro he
  apply h
  apply String.ext
  have h2 : (sanitize s).data = [] := by rw [he]
  rw [sanitize_data] at h2
  simpa using h2

theorem generate_some_eq {inp r : String} (h : r ≠ "") :
    generate_output_filename inp (some r) = Except.ok (sanitize r) := by
  simp only [generate_output_filename]
  rw [if_neg h, if_neg (sanitize_ne_empty h)]

/-! ### Properties of splitext and the derived output name -/

theorem lastIdxOf_lt_length {cs : List Char} {c : Char} {i : Nat}
    (h : lastIdxOf cs c = some i) : i < cs.length := by
  induction cs generalizing i with
  | nil => simp [lastIdxOf] at h
  | cons a rest ih =>
    rw [lastIdxOf] at h
    cases hr : lastIdxOf rest c with
    | some j =>
      rw [hr] at h
      injection h with h
      have := ih hr
      simp only [List.length_cons]
      omega
    | none =>
      rw [hr] at h
      by_cases ha : a = c
      · rw [if_pos ha] at h
        injection h with h
        simp only [List.length_cons]
        omega
      · rw [if_neg ha] at h
        exact absurd h (by simp)

theorem lastIdxOf_eq_none {cs : List Char} {c : Char} (h : c ∉ cs) :
    lastIdxOf cs c = none := by
  induction cs with
  | nil => rfl
  | cons a rest ih =>
    rw [lastIdxOf, ih (fun hm => h (List.mem_cons_of_mem a hm))]
    exact if_neg (fun ha => h (by rw [← ha]; exact List.mem_cons_self a rest))

theorem splitext_spec (p : String) :
    splitext p = (p, "") ∨
    ∃ i, lastIdxOf p.data '.' = some i ∧ 0 < i ∧
      splitext p = (String.mk (p.data.take i), String.mk (p.data.drop i)) := by
  simp only [splitext]
  cases hd : lastIdxOf p.data '.' with
  | none => exact Or.inl rfl
  | some sepIndex =>
    dsimp only
    split
    · next hcond =>
      exact Or.inr ⟨sepIndex, rfl, Nat.lt_of_le_of_lt (Nat.zero_le _) hcond.1, rfl⟩
    · exact Or.inl rfl

theorem splitext_base_ne_empty {p : String} (h : (splitext p).2 ≠ "") :
    (splitext p).1 ≠ "" := by
  rcases splitext_spec p with h1 | ⟨i, hd, hi, he⟩
  · rw [h1] at h
    simp at h
  · rw [he]
    intro hb
    have hlen := lastIdxOf_lt_length hd
    have h2 : p.data.take i = [] := by
      simpa using congrArg String.data hb
    have h3 : min i p.data.length = 0 := by
      rw [← List.length_take, h2]
      rfl
    omega

theorem fallback_eq (inp : String) :
    fallback_output_filename inp = (splitext inp).1 ++ "_transformed" ++ (splitext inp).2 := by
  simp only [fallback_output_filename]
  split
  · next hguard => exact absurd hguard.1 (splitext_base_ne_empty hguard.2)
  · split
    · next hdot =>
      have hsp : splitext inp = (inp, "") := by
        simp only [splitext, lastIdxOf_eq_none hdot]
      rw [hsp]
      simp
    · rfl

/-! ### Properties of the handler control flow -/

theorem run_and_respond_cleanup (w : World) (i op fn : String) (args : List String) :
    (run_and_respond w i op fn args).cleanupScheduled = 1 := by
  simp only [run_and_respond]
  (repeat' split) <;> rfl

theorem run_and_respond_launched (w : World) (i op fn : String) (args : List String) :
    (run_and_respond w i op fn args).launched =
      some (buildInvocation FFMPEG_PATH i args op) := by
  simp only [run_and_respond]
  (repeat' split) <;> rfl

theorem run_and_respond_file_inv (w : World) (i op fn : String) (args : List String)
    (p n mt : String)
    (h : (run_and_respond w i op fn args).response = Response.file p n mt) :
    ∃ sout serr, w.run (buildInvocation FFMPEG_PATH i args op) =
        RunOutcome.completed 0 sout serr ∧ w.outputExists = true := by
  revert h
  simp only [run_and_respond]
  split
  · intro h
    exact absurd h (by simp [outerWrap])
  · intro h
    exact absurd h (by simp [outerWrap])
  · next returncode pstdout pstderr heq =>
    split
    · intro h
      exact absurd h (by simp [outerWrap])
    · next hrc =>
      split
      · intro h
        exact absurd h (by simp [outerWrap])
      · next hoe =>
        intro _
        refine ⟨pstdout, pstderr, ?_, ?_⟩
        · rw [heq, not_not.mp hrc]
        · cases hb : w.outputExists
          · exact absurd hb hoe
          · rfl

theorem run_and_respond_nonzero (w : World) (i op fn : String) (args : List String)
    (code : Int) (sout serr : String)
    (hrun : w.run (buildInvocation FFMPEG_PATH i args op) = RunOutcome.completed code sout serr)
    (hcode : code ≠ 0) :
    (run_and_respond w i op fn args).response =
      outerWrap 500 ("FFmpeg error (code " ++ toString code ++ "): " ++
        (if serr ≠ "" then serr else if sout ≠ "" then sout else "No output captured.")) := by
  simp only [run_and_respond, hrun]
  rw [if_pos hcode]

theorem run_and_respond_missing (w : World) (i op fn : String) (args : List String)
    (sout serr : String)
    (hrun : w.run (buildInvocation FFMPEG_PATH i args op) = RunOutcome.completed 0 sout serr)
    (hout : w.outputExists = false) :
    (run_and_respond w i op fn args).response =
      outerWrap 500 "FFmpeg seemed to complete, but the output file was not found. Check API logs and FFmpeg command." := by
  simp only [run_and_respond, hrun]
  rw [if_neg (by decide : ¬((0 : Int) ≠ 0)), if_pos hout]

theorem handler_decompose (w : World) (f : Option String) (c : String) (o : Option String) :
    ((process_file_with_ffmpeg w f c o).launched = none ∧
      ∃ st d, (process_file_with_ffmpeg w f c o).response = Response.error st d) ∨
    (∃ inputPath outputPath final args,
      shlexSplit c = Except.ok args ∧
      process_file_with_ffmpeg w f c o = run_and_respond w inputPath outputPath final args) := by
  simp only [process_file_with_ffmpeg]
  split
  · exact Or.inl ⟨rfl, 500, _, rfl⟩
  · split
    · exact Or.inl ⟨rfl, 500, _, rfl⟩
    · split
      · exact Or.inl ⟨rfl, 500, _, rfl⟩
      · split
        · exact Or.inl ⟨rfl, 500, _, rfl⟩
        · next args heq => exact Or.inr ⟨_, _, _, args, heq, rfl⟩

theorem cleanup_scheduled_once (w : World) (f : Option String) (c : String) (o : Option String) :
    (process_file_with_ffmpeg w f c o).cleanupScheduled = 1 := by
  simp only [process_file_with_ffmpeg]
  split
  · rfl
  · split
    · rfl
    · split
      · rfl
      · split
        · rfl
        · exact run_and_respond_cleanup w _ _ _ _

theorem cleanup_temp_dir_not_mem (fs : List String) (path : String) :
    path ∉ cleanup_temp_dir fs path := by
  unfold cleanup_temp_dir
  split
  · intro h
    have hp := (List.mem_filter.mp h).2
    simp at hp
  · next h => exact h

theorem cleanup_temp_dir_idem (fs : List String) (path : String) :
    cleanup_temp_dir (cleanup_temp_dir fs path) path = cleanup_temp_dir fs path := by
  conv_lhs => rw [cleanup_temp_dir]
  rw [if_neg (cleanup_temp_dir_not_mem fs path)]

/-! ### Shell-safety of flag tokenization -/

theorem shlexAux_quoteD (inner : List Char)
    (h : ∀ ch ∈ inner, ch ≠ '"' ∧ ch ≠ '\\') :
    ∀ (tok : List Char) (acc : List String) (rest : List Char),
    shlexSplitAux LexState.quoteD tok true acc (inner ++ '"' :: rest) =
      shlexSplitAux LexState.word (tok ++ inner) true acc rest := by
  induction inner with
  | nil =>
    intro tok acc rest
    simp [shlexSplitAux]
  | cons a as ih =>
    intro tok acc rest
    have ha := h a (List.mem_cons_self a as)
    have hstep : shlexSplitAux LexState.quoteD tok true acc ((a :: as) ++ '"' :: rest) =
        shlexSplitAux LexState.quoteD (tok ++ [a]) true acc (as ++ '"' :: rest) := by
      simp [shlexSplitAux, ha.1, ha.2]
    rw [hstep, ih (fun ch hc => h ch (List.mem_cons_of_mem a hc)) (tok ++ [a]) acc rest,
      List.append_assoc]
    rfl

theorem shlexSplit_quoted_token (inner : List Char)
    (h : ∀ ch ∈ inner, ch ≠ '"' ∧ ch ≠ '\\') :
    shlexSplit (String.mk ('"' :: (inner ++ ['"']))) = Except.ok [String.mk inner] := by
  have h1 : shlexSplit (String.mk ('"' :: (inner ++ ['"']))) =
      shlexSplitAux LexState.quoteD [] true [] (inner ++ '"' :: []) := rfl
  rw [h1, shlexAux_quoteD inner h [] [] []]
  simp [shlexSplitAux]

/-! ### Claim theorems -/

/-- C1: every execution of the handler schedules the workspace-removal task
exactly once, on every exit path (normal completion, validation errors, tool
failures, unanticipated exceptions are all branches of the model); running
the removal leaves the workspace directory absent from disk, and a second
removal is an idempotent no-op. -/
theorem c1_workspace_cleanup_every_path :
    (∀ (w : World) (f : Option String) (c : String) (o : Option String),
      (process_file_with_ffmpeg w f c o).cleanupScheduled = 1) ∧
    (∀ (fs : List String) (path : String), path ∉ cleanup_temp_dir fs path) ∧
    (∀ (fs : List String) (path : String),
      cleanup_temp_dir (cleanup_temp_dir fs path) path = cleanup_temp_dir fs path) :=
  ⟨cleanup_scheduled_once, cleanup_temp_dir_not_mem, cleanup_temp_dir_idem⟩

/-- C2: for an empty or whitespace-only flag string no external process is
launched, but the handler's response carries status 500, not the claimed 400:
the deliberately raised 400 `HTTPException` is swallowed by the blanket
`except Exception` at main.py line 193 and re-raised as a 500. -/
theorem c2_empty_flags_rewrapped_to_500 :
    (process_file_with_ffmpeg W0 (some "clip.mp4") "" none).launched = none ∧
    (process_file_with_ffmpeg W0 (some "clip.mp4") "" none).response =
      Response.error 500 "An internal server error occurred: 400: Invalid command string format: FFmpeg commands cannot be empty.. Ensure proper quoting if needed." ∧
    (process_file_with_ffmpeg W0 (some "clip.mp4") "   " none).launched = none ∧
    (process_file_with_ffmpeg W0 (some "clip.mp4") "   " none).response =
      Response.error 500 "An internal server error occurred: 400: Invalid command string format: FFmpeg commands cannot be empty.. Ensure proper quoting if needed." :=
  ⟨rfl, by decide, rfl, by decide⟩

/-- C3 counterexample: the sanitizer maps `".."` to itself, so a sanitized
filename can contain the traversal sequence `..` as a substring - `'.'` is on
the allow-list. -/
theorem c3_counterexample :
    sanitize ".." = ".." ∧ hasDotDot (sanitize "..").data = true := by
  decide

/-- C3 (amended): for every input string the sanitized filename contains no
path separator `/`; the traversal sequence `..` can survive sanitization
(see the counterexample), since `'.'` is allow-listed. -/
theorem c3_sanitized_no_path_separator : ∀ x : String, '/' ∉ (sanitize x).data := by
  intro x h
  rw [sanitize_data] at h
  obtain ⟨c, _, hc⟩ := List.mem_map.mp h
  exact sanitizeChar_ne_slash c hc

/-- C4: a success response is produced only when the tool exited 0 and the
declared output path exists afterwards; a zero exit with a missing output
file yields a 500 error response, never a success response. -/
theorem c4_success_requires_verified_output :
    (∀ (w : World) (f : Option String) (c : String) (o : Option String) (p n mt : String),
      (process_file_with_ffmpeg w f c o).response = Response.file p n mt →
      ∃ argv sout serr, (process_file_with_ffmpeg w f c o).launched = some argv ∧
        w.run argv = RunOutcome.completed 0 sout serr ∧ w.outputExists = true) ∧
    (∀ (w : World) (f : Option String) (c : String) (o : Option String)
        (argv : List String) (sout serr : String),
      (process_file_with_ffmpeg w f c o).launched = some argv →
      w.run argv = RunOutcome.completed 0 sout serr →
      w.outputExists = false →
      (process_file_with_ffmpeg w f c o).response =
        Response.error 500 "An internal server error occurred: 500: FFmpeg seemed to complete, but the output file was not found. Check API logs and FFmpeg command.") := by
  constructor
  · intro w f c o p n mt hfile
    rcases handler_decompose w f c o with ⟨_, st, d, hresp⟩ | ⟨i, op, fn, args, _, heq⟩
    · rw [hresp] at hfile
      exact absurd hfile (by simp)
    · rw [heq] at hfile ⊢
      obtain ⟨sout, serr, hrun, hex⟩ := run_and_respond_file_inv w i op fn args p n mt hfile
      exact ⟨_, sout, serr, run_and_respond_launched w i op fn args, hrun, hex⟩
  · intro w f c o argv sout serr hl hrun hout
    rcases handler_decompose w f c o with ⟨hnone, _⟩ | ⟨i, op, fn, args, _, heq⟩
    · rw [hnone] at hl
      exact absurd hl (by simp)
    · rw [heq] at hl ⊢
      rw [run_and_respond_launched w i op fn args] at hl
      have hargv : argv = buildInvocation FFMPEG_PATH i args op := (Option.some.inj hl).symm
      rw [hargv] at hrun
      rw [run_and_respond_missing w i op fn args sout serr hrun hout]
      decide

/-- C4 witness: a world whose tool reports exit 0 but leaves no output file
behind gets the 500 missing-output error, not a success response. -/
theorem c4_witness :
    (process_file_with_ffmpeg W1 (some "clip.mp4") "-c copy" none).response =
      Response.error 500 "An internal server error occurred: 500: FFmpeg seemed to complete, but the output file was not found. Check API logs and FFmpeg command." :=
  c4_success_requires_verified_output.2 W1 (some "clip.mp4") "-c copy" none
    (buildInvocation FFMPEG_PATH "/tmp/ffmpeg_api_abc/clip.mp4" ["-c", "copy"]
      "/tmp/ffmpeg_api_abc/clip_transformed.mp4") "" "" rfl rfl rfl

/-- C5: a requested output name that is non-empty resolves to its sanitized
form; with no requested name the result is `base + "_transformed" + ext` of
the input name (whole name as base, empty extension, when there is no
extension); including the three specified examples. -/
theorem c5_output_name_derivation :
    (∀ inp r : String, r ≠ "" →
      generate_output_filename inp (some r) = Except.ok (sanitize r)) ∧
    (∀ inp : String, generate_output_filename inp none =
      Except.ok ((splitext inp).1 ++ "_transformed" ++ (splitext inp).2)) ∧
    generate_output_filename "clip.mp4" none = Except.ok "clip_transformed.mp4" ∧
    generate_output_filename "clip" none = Except.ok "clip_transformed" ∧
    generate_output_filename "clip.mp4" (some "out.mkv") = Except.ok "out.mkv" :=
  ⟨fun _ _ h => generate_some_eq h,
   fun inp => by
     rw [show generate_output_filename inp none =
       Except.ok (fallback_output_filename inp) from rfl, fallback_eq],
   rfl, rfl, rfl⟩

/-- C5 witness: concrete instance of the requested-name clause. -/
theorem c5_witness :
    generate_output_filename "video.mov" (some "my out.mkv") =
      Except.ok (sanitize "my out.mkv") :=
  c5_output_name_derivation.1 "video.mov" "my out.mkv" (by decide)

/-- C6: the assembled invocation vector is exactly
`[toolPath, "-i", inputPath, ...argVector, outputPath]` - fixed input flag
and input path first, user flags in order, output path last - and every
vector the handler hands to the process-creation call has this shape, with
the arg vector coming from flag tokenization. -/
theorem c6_invocation_vector :
    (∀ (t i : String) (a : List String) (o : String),
      buildInvocation t i a o = [t, "-i", i] ++ a ++ [o] ∧
      (buildInvocation t i a o).getLast? = some o ∧
      (buildInvocation t i a o).take 3 = [t, "-i", i]) ∧
    (∀ (w : World) (f : Option String) (c : String) (o : Option String) (argv : List String),
      (process_file_with_ffmpeg w f c o).launched = some argv →
      ∃ inputPath args outputPath, shlexSplit c = Except.ok args ∧
        argv = buildInvocation FFMPEG_PATH inputPath args outputPath) := by
  constructor
  · intro t i a o
    exact ⟨rfl, List.getLast?_concat _, rfl⟩
  · intro w f c o argv hl
    rcases handler_decompose w f c o with ⟨hnone, _⟩ | ⟨i, op, fn, args, hs, heq⟩
    · rw [hnone] at hl
      exact absurd hl (by simp)
    · rw [heq, run_and_respond_launched w i op fn args] at hl
      exact ⟨i, args, op, hs, (Option.some.inj hl).symm⟩

/-- C6 witness: concrete instance of the handler clause. -/
theorem c6_witness :
    ∃ inputPath args outputPath, shlexSplit "-c copy" = Except.ok args ∧
      buildInvocation FFMPEG_PATH "/tmp/ffmpeg_api_abc/clip.mp4" ["-c", "copy"]
          "/tmp/ffmpeg_api_abc/clip_transformed.mp4" =
        buildInvocation FFMPEG_PATH inputPath args outputPath :=
  c6_invocation_vector.2 W0 (some "clip.mp4") "-c copy" none
    (buildInvocation FFMPEG_PATH "/tmp/ffmpeg_api_abc/clip.mp4" ["-c", "copy"]
      "/tmp/ffmpeg_api_abc/clip_transformed.mp4") rfl

/-- C7: a non-zero tool exit yields a 500 response whose diagnostic is the
captured stderr, falling back to the captured stdout when stderr is empty,
and to the generic message when both are empty (embedded in the fixed
wrapping the catch-all re-raise adds). -/
theorem c7_nonzero_exit_diagnostics :
    ∀ (w : World) (f : Option String) (c : String) (o : Option String)
      (argv : List String) (code : Int) (sout serr : String),
      (process_file_with_ffmpeg w f c o).launched = some argv →
      w.run argv = RunOutcome.completed code sout serr →
      code ≠ 0 →
      (process_file_with_ffmpeg w f c o).response =
        Response.error 500 ("An internal server error occurred: 500: " ++
          ("FFmpeg error (code " ++ toString code ++ "): " ++
            (if serr ≠ "" then serr
             else if sout ≠ "" then sout
             else "No output captured."))) := by
  intro w f c o argv code sout serr hl hrun hcode
  rcases handler_decompose w f c o with ⟨hnone, _⟩ | ⟨i, op, fn, args, _, heq⟩
  · rw [hnone] at hl
    exact absurd hl (by simp)
  · rw [heq] at hl ⊢
    rw [run_and_respond_launched w i op fn args] at hl
    have hargv : argv = buildInvocation FFMPEG_PATH i args op := (Option.some.inj hl).symm
    rw [hargv] at hrun
    rw [run_and_respond_nonzero w i op fn args code sout serr hrun hcode]
    rfl

/-- C7 witness: exit 1 with stderr `boom` surfaces `boom` in the 500 detail. -/
theorem c7_witness :
    (process_file_with_ffmpeg W2 (some "clip.mp4") "-c copy" none).response =
      Response.error 500 "An internal server error occurred: 500: FFmpeg error (code 1): boom" := by
  have h := c7_nonzero_exit_diagnostics W2 (some "clip.mp4") "-c copy" none
    (buildInvocation FFMPEG_PATH "/tmp/ffmpeg_api_abc/clip.mp4" ["-c", "copy"]
      "/tmp/ffmpeg_api_abc/clip_transformed.mp4") 1 "" "boom" rfl rfl (by decide)
  rw [h]
  decide

/-- C8: a properly quoted shell-metacharacter token such as `"; rm -rf /"` is
preserved by tokenization as a single argument-vector element (or the string
is rejected as malformed - unbalanced quoting is a tokenization error); and
every vector the handler passes to process creation starts with the tool
path, so the embedded command is never the program executed and no shell
ever interprets the vector. -/
theorem c8_shell_safe_tokenization :
    shlexSplit "\"; rm -rf /\"" = Except.ok ["; rm -rf /"] ∧
    (∀ inner : List Char, (∀ ch ∈ inner, ch ≠ '"' ∧ ch ≠ '\\') →
      shlexSplit (String.mk ('"' :: (inner ++ ['"']))) = Except.ok [String.mk inner]) ∧
    (∀ (w : World) (f : Option String) (c : String) (o : Option String) (argv : List String),
      (process_file_with_ffmpeg w f c o).launched = some argv →
      argv.head? = some FFMPEG_PATH) := by
  refine ⟨rfl, shlexSplit_quoted_token, ?_⟩
  intro w f c o argv hl
  rcases handler_decompose w f c o with ⟨hnone, _⟩ | ⟨i, op, fn, args, _, heq⟩
  · rw [hnone] at hl
    exact absurd hl (by simp)
  · rw [heq, run_and_respond_launched w i op fn args] at hl
    rw [(Option.some.inj hl).symm]
    rfl

/-- C8 witness: the quoted-token clause applied to `; rm -rf /` itself. -/
theorem c8_witness :
    shlexSplit (String.mk ('"' :: ("; rm -rf /".data ++ ['"']))) =
      Except.ok [String.mk "; rm -rf /".data] :=
  c8_shell_safe_tokenization.2.1 "; rm -rf /".data (by decide)

/-- C9: filename sanitization is idempotent. -/
theorem c9_sanitize_idempotent : ∀ x : String, sanitize (sanitize x) = sanitize x := by
  intro x
  apply String.ext
  rw [sanitize_data, sanitize_data, List.map_map]
  have h : sanitizeChar ∘ sanitizeChar = sanitizeChar := funext sanitizeChar_idem
  rw [h]

/-- C10: sanitization maps each character to exactly one character, so it
preserves length and maps non-empty strings to non-empty strings; hence for
every non-empty requested output filename the invalid-after-sanitization
error branch is unreachable, and for every non-empty upload filename the
generated-unique-name fallback is unreachable. -/
theorem c10_sanitize_length_invariants :
    (∀ x : String, (sanitize x).length = x.length) ∧
    (∀ x : String, x ≠ "" → sanitize x ≠ "") ∧
    (∀ inp r : String, r ≠ "" →
      generate_output_filename inp (some r) = Except.ok (sanitize r)) ∧
    (∀ u orig : String, orig ≠ "" → safe_input_basename u orig = sanitize orig) :=
  ⟨sanitize_length, fun _ h => sanitize_ne_empty h, fun _ _ h => generate_some_eq h,
   fun u orig h => by
     simp only [safe_input_basename]
     rw [if_neg (sanitize_ne_empty h)]⟩

/-- C10 witness: concrete instance of the fallback-unreachability clause. -/
theorem c10_witness :
    safe_input_basename "deadbeef" "my clip.mp4" = sanitize "my clip.mp4" :=
  c10_sanitize_length_invariants.2.2.2 "deadbeef" "my clip.mp4" (by decide)
